import Mathlib

/-!
Verification development for the `reader` repository's relevance-ranking core.

The Python source is shallowly embedded:
* pure Elo arithmetic (`src/reader/scoring/elo.py`) over `ℝ` (Python floats are
  modelled as real numbers) and the percentile display function over `ℚ`
  (its arithmetic is ring arithmetic, so `ℚ` keeps it executable);
* SQLite tables become Lean lists of records, and each SQL statement becomes
  a list transformation; `ORDER BY RANDOM() LIMIT n` becomes a relation
  (any sub-permutation of the matching rows of the right length);
* the external LLM and the Python `json` / `difflib` standard-library modules
  are oracles passed in as function arguments;
* Python exceptions become `Except` results.
-/

namespace Reader

/-! ## JSON values (result of Python `json.loads`), and Python string helpers -/

/-- A parsed JSON value, the result type of the external `json.loads` oracle. -/
inductive JsonValue where
  | jstr : String → JsonValue
  | jnum : ℚ → JsonValue
  | jbool : Bool → JsonValue
  | jnull : JsonValue
  | jarr : List JsonValue → JsonValue
  | jobj : List (String × JsonValue) → JsonValue

/-- The `\x7b` character (opening curly brace). -/
def lbrace : Char := Char.ofNat 123

/-- The `\x7d` character (closing curly brace). -/
def rbrace : Char := Char.ofNat 125

/-- Python `str.find(c)`: index of the first occurrence of `c`, or `-1`. -/
def pyFind (s : String) (c : Char) : ℤ :=
  match s.toList.findIdx? (fun x => x = c) with
  | some i => (i : ℤ)
  | none => -1

/-- Python `str.rfind(c)`: index of the last occurrence of `c`, or `-1`. -/
def pyRfind (s : String) (c : Char) : ℤ :=
  match s.toList.reverse.findIdx? (fun x => x = c) with
  | some i => (s.toList.length : ℤ) - 1 - (i : ℤ)
  | none => -1

/-- Python slice `s[a:b]` for non-negative bounds. -/
def pySlice (s : String) (a b : ℕ) : String :=
  String.mk ((s.toList.drop a).take (b - a))

/-- Python `dict.get(k)`: the value at the first matching key, if present. -/
def dict_get (d : List (String × JsonValue)) (k : String) : Option JsonValue :=
  (d.find? (fun kv => kv.1 = k)).map (fun kv => kv.2)

/-- Python `dict.get(k, default)`. -/
def dict_getD (d : List (String × JsonValue)) (k : String) (v : JsonValue) : JsonValue :=
  (dict_get d k).getD v

/-! ## `src/reader/models/elo.py` — comparison models -/

/-- `ComparisonOutcome` enum from `models/elo.py` (string values
`"a_wins"`, `"b_wins"`, `"tie"`). -/
inductive ComparisonOutcome where
  | a_wins
  | b_wins
  | tie
deriving DecidableEq

/-- `PairwiseComparisonRequest` from `models/elo.py`. -/
structure PairwiseComparisonRequest where
  article_a_id : ℕ
  article_b_id : ℕ
  article_a_title : String
  article_b_title : String
  article_a_preview : String
  article_b_preview : String

/-- `PairwiseComparisonResponse` from `models/elo.py`: a pydantic model with
`reasoning : str` — constructing it with a non-string reasoning value raises
a `ValidationError`. -/
structure PairwiseComparisonResponse where
  outcome : ComparisonOutcome
  reasoning : String

/-! ## `src/reader/scoring/pairwise.py` — comparator -/

/-- `ComparisonOutcome(value)` from `models/elo.py`: succeeds exactly on the
three enum string values, raises `ValueError` (here: `none`) otherwise. -/
def comparison_outcome_of_value : JsonValue → Option ComparisonOutcome
  | JsonValue.jstr "a_wins" => some ComparisonOutcome.a_wins
  | JsonValue.jstr "b_wins" => some ComparisonOutcome.b_wins
  | JsonValue.jstr "tie" => some ComparisonOutcome.tie
  | _ => none

/-- `_build_comparison_prompt` from `pairwise.py`: the comparison prompt
template instantiated with the request's titles and previews. -/
def build_comparison_prompt (r : PairwiseComparisonRequest) : String :=
  "You are helping curate a personalized reading list. Compare these two articles and decide which one is MORE RELEVANT and INTERESTING to the user.\n\nArticle A: "
    ++ r.article_a_title ++ "\nSource: Article A\nPreview: " ++ r.article_a_preview
    ++ "\n\nArticle B: " ++ r.article_b_title ++ "\nSource: Article B\nPreview: "
    ++ r.article_b_preview

/-- The tail of `_parse_comparison_response`: outcome validation (an
unrecognised value degrades to `tie` with a logged warning) followed by the
`PairwiseComparisonResponse(outcome=..., reasoning=data.get("reasoning",
"No reasoning provided"))` pydantic construction, whose `reasoning : str`
field validation raises a `ValidationError` on a non-string value. -/
def build_comparison_response (data : List (String × JsonValue)) :
    Except String PairwiseComparisonResponse :=
  match dict_getD data "reasoning" (JsonValue.jstr "No reasoning provided") with
  | JsonValue.jstr s =>
    Except.ok
      ⟨(comparison_outcome_of_value (dict_getD data "outcome" (JsonValue.jstr "tie"))).getD
          ComparisonOutcome.tie, s⟩
  | _ => Except.error "ValidationError: reasoning must be a string"

/-- `_parse_comparison_response` from `pairwise.py`.  `jsonLoads` is the
external `json.loads` oracle, specialised to JSON-object results (`none`
covers `JSONDecodeError`).  An unrecognised `outcome` value degrades to
`tie`; a missing or invalid JSON object is a `ComparisonError`
(modelled as `Except.error`).  The final
`PairwiseComparisonResponse(outcome=..., reasoning=data.get("reasoning", ...))`
construction (`build_comparison_response`) validates `reasoning : str`: a
non-string reasoning value raises a pydantic `ValidationError`, which the
caller `compare_articles` surfaces as a `ComparisonError` through its
blanket `except Exception`. -/
def _parse_comparison_response (jsonLoads : String → Option (List (String × JsonValue)))
    (text : String) : Except String PairwiseComparisonResponse :=
  if pyFind text lbrace = -1 ∨ pyRfind text rbrace + 1 = 0 then
    Except.error "No JSON found in response"
  else
    match jsonLoads (pySlice text (pyFind text lbrace).toNat (pyRfind text rbrace + 1).toNat) with
    | none => Except.error "Invalid JSON in response"
    | some data => build_comparison_response data

/-- `compare_articles` from `pairwise.py`.  `llm` is the external judge call
(`compare_with_anthropic` / `compare_with_ollama`); `Except.error ()` stands
for a transport-level failure (HTTP error or timeout), which the source
converts into a `ComparisonError`. -/
def compare_articles (jsonLoads : String → Option (List (String × JsonValue)))
    (llm : String → Except Unit String) (request : PairwiseComparisonRequest) :
    Except String PairwiseComparisonResponse :=
  match llm (build_comparison_prompt request) with
  | Except.error _ => Except.error "HTTP error calling LLM"
  | Except.ok response_text => _parse_comparison_response jsonLoads response_text

/-! ## `src/reader/scoring/elo.py` — pure Elo arithmetic -/

/-- `DEFAULT_ELO_RATING` from `elo.py`. -/
def DEFAULT_ELO_RATING : ℝ := 1500

/-- `DEFAULT_K_FACTOR` from `elo.py`. -/
def DEFAULT_K_FACTOR : ℝ := 32

/-- `COMPARISONS_FOR_CONFIDENCE` from `elo.py`. -/
def COMPARISONS_FOR_CONFIDENCE : ℕ := 7

/-- `calculate_expected_score` from `elo.py`:
`1 / (1 + 10 ** ((rating_b - rating_a) / 400))`. -/
noncomputable def calculate_expected_score (rating_a rating_b : ℝ) : ℝ :=
  1 / (1 + (10 : ℝ) ^ ((rating_b - rating_a) / 400))

/-- `calculate_elo_update` from `elo.py`: new ratings for both sides. -/
noncomputable def calculate_elo_update (rating_a rating_b : ℝ)
    (outcome : ComparisonOutcome) (k_factor : ℝ) : ℝ × ℝ :=
  let expected_a := calculate_expected_score rating_a rating_b
  let expected_b := 1 - expected_a
  let actual : ℝ × ℝ :=
    match outcome with
    | ComparisonOutcome.a_wins => (1, 0)
    | ComparisonOutcome.b_wins => (0, 1)
    | ComparisonOutcome.tie => (1/2, 1/2)
  (rating_a + k_factor * (actual.1 - expected_a),
   rating_b + k_factor * (actual.2 - expected_b))

/-- `EloUpdate` from `models/elo.py`. -/
structure EloUpdate where
  article_a_id : ℕ
  article_b_id : ℕ
  article_a_elo_before : ℝ
  article_a_elo_after : ℝ
  article_b_elo_before : ℝ
  article_b_elo_after : ℝ
  k_factor : ℝ
  outcome : ComparisonOutcome

/-- `create_elo_update` from `elo.py`. -/
noncomputable def create_elo_update (article_a_id article_b_id : ℕ)
    (rating_a rating_b : ℝ) (outcome : ComparisonOutcome) (k_factor : ℝ) : EloUpdate :=
  let new_ratings := calculate_elo_update rating_a rating_b outcome k_factor
  ⟨article_a_id, article_b_id, rating_a, new_ratings.1, rating_b, new_ratings.2,
    k_factor, outcome⟩

/-- `calculate_percentile` from `elo.py`, over `ℚ` (its arithmetic is exact
field arithmetic: counts, one division by 2, one division by the length,
one multiplication by 100, and a clamp to `[0, 100]`). -/
def calculate_percentile (rating : ℚ) (all_ratings : List ℚ) : ℚ :=
  if all_ratings.isEmpty then 50
  else
    let count_below : ℚ := all_ratings.countP (fun r => decide (r < rating))
    let count_equal : ℚ := all_ratings.countP (fun r => decide (r = rating))
    let percentile := ((count_below + count_equal / 2) / (all_ratings.length : ℚ)) * 100
    min 100 (max 0 percentile)

/-! ## `src/reader/db/repository.py` — articles table and `update_elo` -/

/-- The rating-relevant columns of one `articles` row.  `elo_rating` is
`NULL`able; `elo_comparisons` defaults to 0; `elo_confidence` to false. -/
structure Article where
  id : ℕ
  title : String
  content_markdown : String
  elo_rating : Option ℝ
  elo_comparisons : ℕ
  elo_confidence : Bool
  generation_id : Option ℕ

/-- The `SET` clause of `ArticleRepository.update_elo` applied to one row:
stores the new rating; when `increment_comparisons`, also bumps the counter
and recomputes `elo_confidence` as `elo_comparisons + 1 >= 7`. -/
def update_elo_article (elo_rating : ℝ) (increment_comparisons : Bool) (a : Article) : Article :=
  if increment_comparisons then
    { a with elo_rating := some elo_rating,
             elo_comparisons := a.elo_comparisons + 1,
             elo_confidence := decide (7 ≤ a.elo_comparisons + 1) }
  else
    { a with elo_rating := some elo_rating }

/-- `ArticleRepository.update_elo`: the `UPDATE articles ... WHERE id = ?`
statement over the whole table. -/
def update_elo (db : List Article) (article_id : ℕ) (elo_rating : ℝ)
    (increment_comparisons : Bool) : List Article :=
  db.map (fun a =>
    if a.id = article_id then update_elo_article elo_rating increment_comparisons a else a)

/-! ## `src/reader/scoring/elo_scoring.py` — opponent selection -/

/-- Python truthiness of the optional generation id (`if generation_id:`
in `select_opponents` is false for both `None` and `0`). -/
def py_truthy : Option ℕ → Bool
  | none => false
  | some n => decide (n ≠ 0)

/-- `WHERE id != ? AND elo_rating IS NOT NULL` (both selection queries). -/
def opponent_filter (exclude_id : ℕ) (a : Article) : Bool :=
  decide (a.id ≠ exclude_id) && a.elo_rating.isSome

/-- `WHERE id != ? AND elo_rating IS NOT NULL AND generation_id = ?`
(the generation-preferring query). -/
def opponent_filter_gen (exclude_id : ℕ) (generation_id : Option ℕ) (a : Article) : Bool :=
  opponent_filter exclude_id a && decide (a.generation_id = generation_id)

/-- One `SELECT ... ORDER BY RANDOM() LIMIT n` query: the result is some
sub-permutation of the matching rows (rows are drawn without replacement
within a single query), of length `min n #matching`. -/
def sql_random_select (db : List Article) (p : Article → Bool) (limit : ℕ)
    (res : List Article) : Prop :=
  List.Subperm res (db.filter p) ∧ res.length = min limit (db.filter p).length

/-- `select_opponents` from `elo_scoring.py`, as a relation between the
articles table and the returned opponent list (the source's two
`ORDER BY RANDOM()` queries are nondeterministic).  When a truthy generation
id is given, the first query prefers that generation and, if it returns
fewer than `count` rows, a second query over all rated articles backfills
the remainder. -/
def select_opponents (db : List Article) (exclude_id : ℕ) (generation_id : Option ℕ)
    (count : ℕ) (res : List Article) : Prop :=
  if py_truthy generation_id then
    ∃ q1, sql_random_select db (opponent_filter_gen exclude_id generation_id) count q1 ∧
      (if q1.length < count then
        ∃ q2, sql_random_select db (opponent_filter exclude_id) (count - q1.length) q2 ∧
          res = q1 ++ q2
      else res = q1)
  else
    sql_random_select db (opponent_filter exclude_id) count res

/-! ## `src/reader/scoring/elo_scoring.py` — scoring orchestrator -/

/-- `EloComparisonCreate` from `models/elo.py`: one ledger entry appended by
`EloComparisonRepository.create`. -/
structure EloComparisonCreate where
  article_a_id : ℕ
  article_b_id : ℕ
  winner_id : Option ℕ
  llm_reasoning : JsonValue
  article_a_elo_before : ℝ
  article_a_elo_after : ℝ
  article_b_elo_before : ℝ
  article_b_elo_after : ℝ
  k_factor : ℝ
  generation_id : Option ℕ

/-- The mutable state of one `score_article_with_elo` run: the articles
table, the comparison ledger, the collected error messages, the completed
count, and the subject's in-memory rating (`article.elo_rating`, a running
accumulator across the loop). -/
structure ScoreState where
  db : List Article
  records : List EloComparisonCreate
  errors : List String
  completed : ℕ
  current_elo : Option ℝ

/-- The error message `f"Comparison with article \x7bopponent.id\x7d failed: \x7be\x7d"`. -/
def comparison_error_msg (opponent_id : ℕ) (e : String) : String :=
  "Comparison with article " ++ toString opponent_id ++ " failed: " ++ e

/-- One iteration of the comparison loop in `score_article_with_elo`.
`res` is the outcome of `compare_articles` for this opponent:
`Except.error e` stands for a raised `ComparisonError` with message `e`,
`Except.ok (outcome, reasoning)` for a parsed response.  On success the
source computes the Elo update from the subject's current in-memory rating
and the opponent's rating as fetched at selection time, writes both ratings
with counter increments, appends a ledger record, and advances the
accumulator; on `ComparisonError` it records the message and continues. -/
noncomputable def score_step (article_id : ℕ) (generation_id : Option ℕ)
    (st : ScoreState) (opponent : Article)
    (res : Except String (ComparisonOutcome × JsonValue)) : ScoreState :=
  match res with
  | Except.error e =>
      ⟨st.db, st.records, st.errors ++ [comparison_error_msg opponent.id e],
        st.completed, st.current_elo⟩
  | Except.ok (outcome, reasoning) =>
      let current_elo := st.current_elo.getD DEFAULT_ELO_RATING
      let opponent_elo := opponent.elo_rating.getD DEFAULT_ELO_RATING
      let u := create_elo_update article_id opponent.id current_elo opponent_elo
        outcome DEFAULT_K_FACTOR
      let db1 := update_elo st.db article_id u.article_a_elo_after true
      let db2 := update_elo db1 opponent.id u.article_b_elo_after true
      let winner_id : Option ℕ :=
        match outcome with
        | ComparisonOutcome.a_wins => some article_id
        | ComparisonOutcome.b_wins => some opponent.id
        | ComparisonOutcome.tie => none
      let rec_entry : EloComparisonCreate :=
        ⟨article_id, opponent.id, winner_id, reasoning,
          u.article_a_elo_before, u.article_a_elo_after,
          u.article_b_elo_before, u.article_b_elo_after,
          u.k_factor, generation_id⟩
      ⟨db2, st.records ++ [rec_entry], st.errors, st.completed + 1,
        some u.article_a_elo_after⟩

/-- The `for opponent in opponents:` loop of `score_article_with_elo`,
folding `score_step` over the selected opponents paired with their
comparison results. -/
noncomputable def score_article_loop (article_id : ℕ) (generation_id : Option ℕ)
    (ops : List (Article × Except String (ComparisonOutcome × JsonValue)))
    (st : ScoreState) : ScoreState :=
  ops.foldl (fun s p => score_step article_id generation_id s p.1 p.2) st

/-! ## `src/reader/db/repository.py` — prompt generations and feedback -/

/-- `PromptGeneration` from `models/scoring.py` (timestamps omitted: the
source only ever writes `now()` into them and no claim reads them). -/
structure PromptGeneration where
  id : ℕ
  prompt_text : String
  diff_from_previous : Option String
  feedback_count : ℕ
  is_active : Bool

/-- SQLite `lastrowid` for an insert into `prompt_generations`: one more
than the largest existing row id. -/
def next_generation_id (store : List PromptGeneration) : ℕ :=
  store.foldr (fun g m => max g.id m) 0 + 1

/-- `PromptGenerationRepository.create`: when `set_active`, first runs
`UPDATE prompt_generations SET is_active = 0`, then inserts the new row
with `is_active = int(set_active)`; returns the new table and the new id. -/
def generation_create (store : List PromptGeneration) (prompt_text : String)
    (diff_from_previous : Option String) (feedback_count : ℕ) (set_active : Bool) :
    List PromptGeneration × ℕ :=
  let store1 := if set_active then store.map (fun g => { g with is_active := false }) else store
  let new_id := next_generation_id store
  (store1 ++ [⟨new_id, prompt_text, diff_from_previous, feedback_count, set_active⟩], new_id)

/-- `PromptGenerationRepository.get_active`:
`SELECT * FROM prompt_generations WHERE is_active = 1` (first row, if any). -/
def generation_get_active (store : List PromptGeneration) : Option PromptGeneration :=
  store.find? (fun g => g.is_active)

/-- `PromptGenerationRepository.get_by_id`. -/
def generation_get_by_id (store : List PromptGeneration) (generation_id : ℕ) :
    Option PromptGeneration :=
  store.find? (fun g => g.id = generation_id)

/-- `FiveWhats` from `models/scoring.py`. -/
structure FiveWhats where
  topic : String
  style : String
  depth : String
  emotion : String
  level : String

/-- `HeuristicFeedback` from `models/scoring.py`; `created_at` is a Unix
timestamp in seconds. -/
structure HeuristicFeedback where
  id : ℕ
  article_id : ℕ
  feedback_text : String
  characterization : Option FiveWhats
  created_at : ℤ
  generation_id : Option ℕ

/-- `HeuristicFeedbackRepository.get_unprocessed_since`:
`WHERE generation_id IS NULL AND created_at >= ?` (the table is kept in
`created_at ASC` order, matching the query's `ORDER BY`). -/
def get_unprocessed_since (feedback : List HeuristicFeedback) (since : ℤ) :
    List HeuristicFeedback :=
  feedback.filter (fun f => f.generation_id.isNone && decide (since ≤ f.created_at))

/-- `HeuristicFeedbackRepository.link_to_generation`: bulk
`UPDATE ... SET generation_id = ? WHERE id IN (...)`, a no-op on an
empty id list. -/
def link_to_generation (feedback : List HeuristicFeedback) (feedback_ids : List ℕ)
    (generation_id : ℕ) : List HeuristicFeedback :=
  if feedback_ids.isEmpty then feedback
  else feedback.map (fun f =>
    if f.id ∈ feedback_ids then { f with generation_id := some generation_id } else f)

/-! ## `src/reader/refiner/batch.py` — daily refinement -/

/-- `_format_feedback_items` from `batch.py`. -/
def format_feedback_items (feedback_list : List HeuristicFeedback) : String :=
  String.intercalate "\n\n" (feedback_list.enum.map (fun p =>
    let base := "Feedback #" ++ toString (p.1 + 1) ++ ":\n  User comment: "
      ++ p.2.feedback_text
    match p.2.characterization with
    | none => base
    | some c => base ++ "\n  Article: topic=" ++ c.topic ++ ", style=" ++ c.style
        ++ ", depth=" ++ c.depth))

/-- `REFINEMENT_PROMPT.format(...)` from `batch.py` (the fixed template text
around the three interpolated fields is abbreviated; no claim reads it). -/
def refinement_prompt (current_prompt : String) (feedback_count : ℕ)
    (feedback_items : String) : String :=
  "You are helping refine a content curation prompt based on user feedback.\n\nCurrent prompt:\n---\n"
    ++ current_prompt ++ "\n---\n\nUser feedback from the past 24 hours ("
    ++ toString feedback_count ++ " items):\n" ++ feedback_items

/-- `_parse_refinement_response` from `batch.py`: locate the embedded JSON
object, parse it with the `json.loads` oracle, and require a `new_prompt`
field; each failure is a `RefinementError` (modelled as `Except.error`). -/
def _parse_refinement_response (jsonLoads : String → Option (List (String × JsonValue)))
    (text : String) : Except String (List (String × JsonValue)) :=
  if pyFind text lbrace = -1 ∨ pyRfind text rbrace + 1 = 0 then
    Except.error "No JSON found in response"
  else
    match jsonLoads (pySlice text (pyFind text lbrace).toNat (pyRfind text rbrace + 1).toNat) with
    | none => Except.error "Invalid JSON in response"
    | some data =>
      if (dict_get data "new_prompt").isSome then Except.ok data
      else Except.error "Response missing new_prompt field"

/-- Python `str(...)` applied to a parsed JSON value
(`str(result["new_prompt"])` in `batch.py`). -/
def py_str : JsonValue → String
  | JsonValue.jstr s => s
  | JsonValue.jnum q => toString q
  | JsonValue.jbool true => "True"
  | JsonValue.jbool false => "False"
  | JsonValue.jnull => "None"
  | JsonValue.jarr _ => "[...]"
  | JsonValue.jobj _ => "\x7b...\x7d"

/-- The persistent state touched by `run_daily_refinement`: the
`heuristic_feedback` and `prompt_generations` tables. -/
structure RefinerState where
  feedback : List HeuristicFeedback
  generations : List PromptGeneration

/-- `run_daily_refinement` from `batch.py`.  Oracles: `llm` is the external
refinement call (`refine_with_anthropic` / `refine_with_ollama`;
`Except.error ()` covers `httpx.HTTPError` and the missing-API-key
`RefinementError`), `jsonLoads` is `json.loads`, `computeDiff` is
`_compute_diff` (built on the external `difflib` module), `now` the current
Unix time in seconds.  Returns the new state and the value the Python
function returns (`none` for "no feedback", "no active generation", and
LLM/parse failure alike). -/
def run_daily_refinement (llm : String → Except Unit String)
    (jsonLoads : String → Option (List (String × JsonValue)))
    (computeDiff : String → String → String) (now : ℤ) (st : RefinerState) :
    RefinerState × Option PromptGeneration :=
  let since := now - 24 * 3600
  let feedback_list := get_unprocessed_since st.feedback since
  if feedback_list.isEmpty then (st, none)
  else
    match generation_get_active st.generations with
    | none => (st, none)
    | some current_gen =>
      let prompt := refinement_prompt current_gen.prompt_text feedback_list.length
        (format_feedback_items feedback_list)
      match llm prompt with
      | Except.error _ => (st, none)
      | Except.ok response_text =>
        match _parse_refinement_response jsonLoads response_text with
        | Except.error _ => (st, none)
        | Except.ok result =>
          let new_prompt_text := py_str (dict_getD result "new_prompt" JsonValue.jnull)
          let diff := computeDiff current_gen.prompt_text new_prompt_text
          let created := generation_create st.generations new_prompt_text (some diff)
            feedback_list.length true
          let feedback2 := link_to_generation st.feedback
            (feedback_list.map (fun f => f.id)) created.2
          (⟨feedback2, created.1⟩, generation_get_by_id created.1 created.2)

/-! ## Helper lemmas -/

lemma clamp_eq_self (v : ℚ) (h0 : 0 ≤ v) (h1 : v ≤ 100) : min 100 (max 0 v) = v := by
  rw [max_eq_right h0, min_eq_right h1]

lemma countP_lt_eq_zero (l : List ℚ) (x : ℚ) (h : ∀ y ∈ l, x ≤ y) :
    l.countP (fun r => decide (r < x)) = 0 := by
  apply List.countP_eq_zero.mpr
  intro y hy
  simp only [decide_eq_true_eq]
  exact not_lt.mpr (h y hy)

lemma countP_eq_eq_zero (l : List ℚ) (x : ℚ) (hx : x ∉ l) :
    l.countP (fun r => decide (r = x)) = 0 := by
  apply List.countP_eq_zero.mpr
  intro y hy
  simp only [decide_eq_true_eq]
  exact fun h => hx (h ▸ hy)

lemma countP_eq_eq_one (l : List ℚ) (x : ℚ) (hnd : l.Nodup) (hx : x ∈ l) :
    l.countP (fun r => decide (r = x)) = 1 := by
  induction l with
  | nil => cases hx
  | cons a l ih =>
    rcases List.mem_cons.mp hx with h | h
    · subst h
      rw [List.countP_cons]
      have h0 : l.countP (fun r => decide (r = x)) = 0 :=
        countP_eq_eq_zero l x (List.nodup_cons.mp hnd).1
      simp [h0]
    · have hax : ¬(a = x) := fun he => (List.nodup_cons.mp hnd).1 (he ▸ h)
      rw [List.countP_cons]
      simp [ih (List.nodup_cons.mp hnd).2 h, hax]

lemma countP_lt_max (l : List ℚ) (x : ℚ) (hnd : l.Nodup) (hx : x ∈ l)
    (h : ∀ y ∈ l, y ≤ x) : l.countP (fun r => decide (r < x)) = l.length - 1 := by
  induction l with
  | nil => cases hx
  | cons a l ih =>
    rcases List.mem_cons.mp hx with he | he
    · subst he
      -- the head is the maximum; every element of the nodup tail is < x
      rw [List.countP_cons]
      have htail : l.countP (fun r => decide (r < x)) = l.length := by
        apply List.countP_eq_length.mpr
        intro y hy
        simp only [decide_eq_true_eq]
        exact lt_of_le_of_ne (h y (List.mem_cons_of_mem _ hy))
          (fun hyx => (List.nodup_cons.mp hnd).1 (hyx ▸ hy))
      simp [htail]
    · have hax : a < x := lt_of_le_of_ne (h a (List.mem_cons_self a l))
        (fun he2 => (List.nodup_cons.mp hnd).1 (he2 ▸ he))
      rw [List.countP_cons]
      have := ih (List.nodup_cons.mp hnd).2 he (fun y hy => h y (List.mem_cons_of_mem _ hy))
      have hpos : 1 ≤ l.length := List.length_pos.mpr (List.ne_nil_of_mem he)
      simp only [this, hax, List.length_cons, decide_eq_true_eq, if_pos]
      simp [hax]
      omega

/-! ## Claim theorems -/

/-- C8: for all ratings `a` and `b`, `expectedScore(a,b) + expectedScore(b,a)`
equals `1` (exactly, over the reals modelling the source's floats), and each
expected score lies strictly between `0` and `1`. -/
theorem expected_score_sum_and_range (a b : ℝ) :
    calculate_expected_score a b + calculate_expected_score b a = 1 ∧
    0 < calculate_expected_score a b ∧ calculate_expected_score a b < 1 := by
  have h10 : (0 : ℝ) < 10 := by norm_num
  have htpos : 0 < (10 : ℝ) ^ ((b - a) / 400) := Real.rpow_pos_of_pos h10 _
  have hswap : (10 : ℝ) ^ ((a - b) / 400) = ((10 : ℝ) ^ ((b - a) / 400))⁻¹ := by
    have hexp : (a - b) / 400 = -((b - a) / 400) := by ring
    rw [hexp, Real.rpow_neg h10.le]
  have hb1 : (0 : ℝ) < 1 + (10 : ℝ) ^ ((b - a) / 400) := by linarith
  refine ⟨?_, ?_, ?_⟩
  · unfold calculate_expected_score
    rw [hswap]
    have h2 : (0 : ℝ) < 1 + ((10 : ℝ) ^ ((b - a) / 400))⁻¹ := by positivity
    field_simp
    ring
  · unfold calculate_expected_score
    positivity
  · unfold calculate_expected_score
    rw [div_lt_one hb1]
    linarith

/-- C1 (amended): over a non-empty collection of pairwise distinct ratings,
the percentile of the single lowest member is `100·(1/2)/N` (the queried
rating itself contributes the `count_equal/2` tie term, so the result is not
`0`); the percentile of the highest member is `100·(N-1+1/2)/N`; and the
percentile of a rating not present in the collection is
`100·count_below/N`, interpolation purely by the count of ratings strictly
below it. -/
theorem percentile_distinct_cases (l : List ℚ) (x : ℚ) (hl : l ≠ []) :
    (l.Nodup → x ∈ l → (∀ y ∈ l, x ≤ y) →
      calculate_percentile x l = 100 * (1 / 2) / (l.length : ℚ)) ∧
    (l.Nodup → x ∈ l → (∀ y ∈ l, y ≤ x) →
      calculate_percentile x l = 100 * ((l.length : ℚ) - 1 + 1 / 2) / (l.length : ℚ)) ∧
    (x ∉ l →
      calculate_percentile x l =
        100 * (l.countP (fun r => decide (r < x)) : ℚ) / (l.length : ℚ)) := by
  have hE : l.isEmpty = false := by
    cases l with
    | nil => exact absurd rfl hl
    | cons a t => rfl
  have hpos : 1 ≤ l.length := List.length_pos.mpr hl
  have hlen : (0 : ℚ) < (l.length : ℚ) := by exact_mod_cast List.length_pos.mpr hl
  have h1len : (1 : ℚ) ≤ (l.length : ℚ) := by exact_mod_cast hpos
  refine ⟨?_, ?_, ?_⟩
  · intro hnd hx hmin
    have hcb := countP_lt_eq_zero l x hmin
    have hce := countP_eq_eq_one l x hnd hx
    unfold calculate_percentile
    rw [if_neg (by rw [hE]; exact Bool.false_ne_true)]
    simp only [hcb, hce]
    push_cast
    rw [clamp_eq_self]
    · ring
    · positivity
    · rw [div_mul_eq_mul_div, div_le_iff₀ hlen]
      linarith
  · intro hnd hx hmax
    have hcb := countP_lt_max l x hnd hx hmax
    have hce := countP_eq_eq_one l x hnd hx
    unfold calculate_percentile
    rw [if_neg (by rw [hE]; exact Bool.false_ne_true)]
    simp only [hcb, hce]
    rw [Nat.cast_sub hpos]
    push_cast
    rw [clamp_eq_self]
    · ring
    · have : (0 : ℚ) ≤ (l.length : ℚ) - 1 := by linarith
      positivity
    · rw [div_mul_eq_mul_div, div_le_iff₀ hlen]
      linarith
  · intro hx
    have hce := countP_eq_eq_zero l x hx
    have hcb_le : (l.countP (fun r => decide (r < x)) : ℚ) ≤ (l.length : ℚ) := by
      exact_mod_cast List.countP_le_length _
    have hcb_nn : (0 : ℚ) ≤ (l.countP (fun r => decide (r < x)) : ℚ) := by positivity
    unfold calculate_percentile
    rw [if_neg (by rw [hE]; exact Bool.false_ne_true)]
    simp only [hce]
    push_cast
    rw [clamp_eq_self]
    · ring
    · positivity
    · rw [div_mul_eq_mul_div, div_le_iff₀ hlen]
      nlinarith

/-- C1 counterexample: in the two-element distinct collection `[1, 2]` the
rating `1` is the single lowest member, yet its percentile is `25`, not `0`
as the claim states. -/
theorem percentile_lowest_counterexample :
    List.Nodup [(1 : ℚ), 2] ∧ (1 : ℚ) ∈ [(1 : ℚ), 2] ∧
    ((1 : ℚ) ≤ 1 ∧ (1 : ℚ) ≤ 2) ∧
    calculate_percentile 1 [1, 2] = 25 ∧ (25 : ℚ) ≠ 0 := by
  refine ⟨by decide, by decide, by norm_num, ?_, by norm_num⟩
  unfold calculate_percentile
  norm_num [List.isEmpty, List.countP_cons, List.countP_nil]

/-- C1 witness: the highest member of the distinct collection `[3, 1, 2]`
has percentile `100·(3-1+1/2)/3`. -/
theorem percentile_distinct_cases_witness :
    calculate_percentile 3 [3, 1, 2] = 100 * ((3 : ℚ) - 1 + 1 / 2) / 3 :=
  ((percentile_distinct_cases [3, 1, 2] 3 (by decide)).2.1 (by decide) (by decide)
    (by decide)).trans (by norm_num)

/-- C9: `calculate_percentile` returns `50` on the empty rating collection,
and its result always lies within `[0, 100]`. -/
theorem percentile_empty_and_clamped (x : ℚ) (l : List ℚ) :
    (l = [] → calculate_percentile x l = 50) ∧
    0 ≤ calculate_percentile x l ∧ calculate_percentile x l ≤ 100 := by
  constructor
  · intro h
    subst h
    rfl
  · unfold calculate_percentile
    by_cases h : l.isEmpty
    · rw [if_pos h]
      norm_num
    · rw [if_neg h]
      constructor
      · exact le_min (by norm_num) (le_max_left 0 _)
      · exact min_le_left _ _

/-- C9 witness: the empty-collection value and the bounds at concrete inputs. -/
theorem percentile_empty_and_clamped_witness :
    calculate_percentile 7 [] = 50 ∧
    (0 ≤ calculate_percentile 7 [1] ∧ calculate_percentile 7 [1] ≤ 100) :=
  ⟨(percentile_empty_and_clamped 7 []).1 rfl, (percentile_empty_and_clamped 7 [1]).2⟩

/-- C5: after `PromptGenerationRepository.create` with `set_active = true`,
exactly one generation is active — the newly created one — regardless of the
prior store contents: the active rows of the resulting table are exactly the
single new row. -/
theorem generation_create_unique_active (store : List PromptGeneration)
    (prompt_text : String) (diff_from_previous : Option String) (feedback_count : ℕ) :
    ((generation_create store prompt_text diff_from_previous feedback_count true).1.filter
        (fun g => g.is_active)) =
      [⟨(generation_create store prompt_text diff_from_previous feedback_count true).2,
        prompt_text, diff_from_previous, feedback_count, true⟩] := by
  have h1 : ((store.map (fun g => { g with is_active := false })).filter
      (fun g => g.is_active)) = [] := by
    rw [List.filter_eq_nil_iff]
    intro g hg
    rcases List.mem_map.mp hg with ⟨g0, _, hg0⟩
    rw [← hg0]
    simp
  simp [generation_create, List.filter_append, h1]

/-- `apply_updates`: a sequence of counter-incrementing
`ArticleRepository.update_elo` writes to one article row (the rating stored
at each step is arbitrary). -/
def apply_updates (rs : List ℝ) (a : Article) : Article :=
  rs.foldl (fun b r => update_elo_article r true b) a

lemma update_elo_article_comparisons (r : ℝ) (a : Article) :
    (update_elo_article r true a).elo_comparisons = a.elo_comparisons + 1 := by
  simp [update_elo_article]

lemma apply_updates_confidence (rs : List ℝ) (a : Article) (h : rs ≠ []) :
    (apply_updates rs a).elo_confidence = decide (7 ≤ a.elo_comparisons + rs.length) := by
  induction rs generalizing a with
  | nil => exact absurd rfl h
  | cons r rs ih =>
    cases rs with
    | nil => simp [apply_updates, update_elo_article]
    | cons r2 rs2 =>
      have hstep : apply_updates (r :: r2 :: rs2) a =
          apply_updates (r2 :: rs2) (update_elo_article r true a) := rfl
      rw [hstep, ih _ (List.cons_ne_nil _ _), decide_eq_decide,
        update_elo_article_comparisons]
      simp only [List.length_cons]
      omega

/-- C6: `elo_confidence` becomes true exactly at the 7th counter-incrementing
rating update: starting from zero comparisons it is true after 7 updates and
false after 6, and every single incrementing update recomputes confidence
from the new count as `new count ≥ 7`. -/
theorem elo_confidence_threshold (a b : Article) (rs : List ℝ) (r : ℝ)
    (h0 : a.elo_comparisons = 0) :
    (rs.length = 7 → (apply_updates rs a).elo_confidence = true) ∧
    (rs.length = 6 → (apply_updates rs a).elo_confidence = false) ∧
    (update_elo_article r true b).elo_confidence = decide (7 ≤ b.elo_comparisons + 1) := by
  refine ⟨?_, ?_, by simp [update_elo_article]⟩
  · intro h7
    have hne : rs ≠ [] := by
      intro he
      rw [he] at h7
      cases h7
    rw [apply_updates_confidence rs a hne, h0, h7]
    decide
  · intro h6
    have hne : rs ≠ [] := by
      intro he
      rw [he] at h6
      cases h6
    rw [apply_updates_confidence rs a hne, h0, h6]
    decide

/-- C6 witness: a fresh article crosses the confidence threshold at the 7th
update and not at the 6th; a row with 6 prior comparisons turns confident on
its next incrementing update. -/
theorem elo_confidence_threshold_witness :
    (apply_updates [1500, 1500, 1500, 1500, 1500, 1500, 1500]
      ⟨1, "t", "c", none, 0, false, none⟩).elo_confidence = true ∧
    (apply_updates [1500, 1500, 1500, 1500, 1500, 1500]
      ⟨1, "t", "c", none, 0, false, none⟩).elo_confidence = false ∧
    (update_elo_article 1500 true ⟨2, "t", "c", none, 6, false, none⟩).elo_confidence = true :=
  ⟨(elo_confidence_threshold ⟨1, "t", "c", none, 0, false, none⟩
      ⟨2, "t", "c", none, 6, false, none⟩
      [1500, 1500, 1500, 1500, 1500, 1500, 1500] 1500 rfl).1 rfl,
    (elo_confidence_threshold ⟨1, "t", "c", none, 0, false, none⟩
      ⟨2, "t", "c", none, 6, false, none⟩
      [1500, 1500, 1500, 1500, 1500, 1500] 1500 rfl).2.1 rfl,
    ((elo_confidence_threshold ⟨1, "t", "c", none, 0, false, none⟩
      ⟨2, "t", "c", none, 6, false, none⟩
      [] 1500 rfl).2.2).trans (by decide)⟩

/-- C4: an iteration of the scoring loop whose comparison raises a
`ComparisonError` only appends the error message — the articles table
(ratings, comparison counters, confidence flags), the comparison ledger, the
completed count and the subject's running rating are all unchanged — and the
loop then continues with the remaining opponents. -/
theorem comparison_error_skips_opponent (article_id : ℕ) (generation_id : Option ℕ)
    (st : ScoreState) (opponent : Article) (e : String)
    (pre post : List (Article × Except String (ComparisonOutcome × JsonValue))) :
    score_article_loop article_id generation_id
        (pre ++ (opponent, Except.error e) :: post) st =
      score_article_loop article_id generation_id post
        ⟨(score_article_loop article_id generation_id pre st).db,
          (score_article_loop article_id generation_id pre st).records,
          (score_article_loop article_id generation_id pre st).errors ++
            [comparison_error_msg opponent.id e],
          (score_article_loop article_id generation_id pre st).completed,
          (score_article_loop article_id generation_id pre st).current_elo⟩ := by
  simp only [score_article_loop, List.foldl_append, List.foldl_cons]
  rfl

lemma update_elo_article_id (r : ℝ) (inc : Bool) (a : Article) :
    (update_elo_article r inc a).id = a.id := by
  cases inc <;> simp [update_elo_article]

lemma update_elo_twice_mem (db : List Article) (i j : ℕ) (x y : ℝ) (b : Article)
    (hb : b ∈ db) (hid : b.id = i ∨ b.id = j) (hij : i ≠ j) :
    ∃ b2, b2 ∈ update_elo (update_elo db i x true) j y true ∧
      b2.id = b.id ∧ b2.elo_comparisons = b.elo_comparisons + 1 ∧
      b2.elo_confidence = decide (7 ≤ b.elo_comparisons + 1) := by
  unfold update_elo
  rcases hid with h | h
  · refine ⟨update_elo_article x true b, ?_, update_elo_article_id x true b, ?_, ?_⟩
    · have h1 : (fun a => if a.id = i then update_elo_article x true a else a) b =
          update_elo_article x true b := by simp [h]
      have hmem1 : update_elo_article x true b ∈
          db.map (fun a => if a.id = i then update_elo_article x true a else a) :=
        h1 ▸ List.mem_map_of_mem _ hb
      have h2 : (fun a => if a.id = j then update_elo_article y true a else a)
          (update_elo_article x true b) = update_elo_article x true b := by
        simp [update_elo_article_id, h, hij]
      exact h2 ▸ List.mem_map_of_mem _ hmem1
    · simp [update_elo_article]
    · simp [update_elo_article]
  · have hbi : b.id ≠ i := by
      rw [h]
      exact fun he => hij he.symm
    refine ⟨update_elo_article y true b, ?_, update_elo_article_id y true b, ?_, ?_⟩
    · have h1 : (fun a => if a.id = i then update_elo_article x true a else a) b = b := by
        simp [hbi]
      have hmem1 : b ∈ db.map (fun a => if a.id = i then update_elo_article x true a else a) :=
        h1 ▸ List.mem_map_of_mem _ hb
      have h2 : (fun a => if a.id = j then update_elo_article y true a else a) b =
          update_elo_article y true b := by simp [h]
      exact h2 ▸ List.mem_map_of_mem _ hmem1
    · simp [update_elo_article]
    · simp [update_elo_article]

/-- C10: every successful comparison writes both participants' rating rows
through the counter-incrementing form of `update_elo`, so the subject's and
the opponent's `elo_comparisons` both grow by one and both rows'
`elo_confidence` flags are recomputed from their new counts. -/
theorem success_updates_both_participants (article_id : ℕ) (generation_id : Option ℕ)
    (st : ScoreState) (opponent : Article) (outcome : ComparisonOutcome)
    (reasoning : JsonValue) (b : Article) (hb : b ∈ st.db)
    (hid : b.id = article_id ∨ b.id = opponent.id) (hne : article_id ≠ opponent.id) :
    ∃ b2, b2 ∈ (score_step article_id generation_id st opponent
        (Except.ok (outcome, reasoning))).db ∧
      b2.id = b.id ∧ b2.elo_comparisons = b.elo_comparisons + 1 ∧
      b2.elo_confidence = decide (7 ≤ b.elo_comparisons + 1) :=
  update_elo_twice_mem st.db article_id opponent.id _ _ b hb hid hne

/-- C10 witness: in a concrete two-article table, a successful tie comparison
bumps the opponent's counter from 3 to 4 and recomputes its confidence. -/
theorem success_updates_both_participants_witness :
    ∃ b2, b2 ∈ (score_step 1 none
        ⟨[⟨1, "s", "sc", some 1500, 0, false, none⟩,
          ⟨2, "o", "oc", some 1500, 3, false, none⟩], [], [], 0, some 1500⟩
        ⟨2, "o", "oc", some 1500, 3, false, none⟩
        (Except.ok (ComparisonOutcome.tie, JsonValue.jnull))).db ∧
      b2.id = (⟨2, "o", "oc", some 1500, 3, false, none⟩ : Article).id ∧
      b2.elo_comparisons =
        (⟨2, "o", "oc", some 1500, 3, false, none⟩ : Article).elo_comparisons + 1 ∧
      b2.elo_confidence = decide (7 ≤
        (⟨2, "o", "oc", some 1500, 3, false, none⟩ : Article).elo_comparisons + 1) :=
  success_updates_both_participants 1 none
    ⟨[⟨1, "s", "sc", some 1500, 0, false, none⟩,
      ⟨2, "o", "oc", some 1500, 3, false, none⟩], [], [], 0, some 1500⟩
    ⟨2, "o", "oc", some 1500, 3, false, none⟩ ComparisonOutcome.tie JsonValue.jnull
    ⟨2, "o", "oc", some 1500, 3, false, none⟩
    (List.Mem.tail _ (List.Mem.head _)) (Or.inr rfl) (by decide)

/-- C2: evaluation of the selection relation at the failing input.  With a
single rated article (id 1, generation 1) in the table, subject id 2, active
generation 1 and a requested count of 2, the only result `select_opponents`
admits is that article twice: the backfill query excludes the subject but
not the rows already returned by the generation-preferring query, so the
returned opponent list contains a duplicate. -/
theorem select_opponents_duplicate :
    select_opponents [⟨1, "a", "c", some 1500, 0, false, some 1⟩] 2 (some 1) 2
      [⟨1, "a", "c", some 1500, 0, false, some 1⟩,
        ⟨1, "a", "c", some 1500, 0, false, some 1⟩] ∧
    ¬ List.Nodup [(⟨1, "a", "c", some 1500, 0, false, some 1⟩ : Article),
        ⟨1, "a", "c", some 1500, 0, false, some 1⟩] := by
  constructor
  · unfold select_opponents
    rw [if_pos (by rfl)]
    refine ⟨[⟨1, "a", "c", some 1500, 0, false, some 1⟩], ⟨?_, ?_⟩, ?_⟩
    · exact List.Subperm.refl _
    · rfl
    · rw [if_pos (by norm_num)]
      exact ⟨[⟨1, "a", "c", some 1500, 0, false, some 1⟩],
        ⟨List.Subperm.refl _, rfl⟩, rfl⟩
  · intro hnd
    exact (List.nodup_cons.mp hnd).1 (List.Mem.head _)

/-- C3 (amended): when `run_daily_refinement` finds unconsumed feedback in
the trailing 24-hour window but no active generation exists, it returns
`None` after logging an error — the same return value as the "no work"
outcome — and it creates no generation and links no feedback (the store
state is unchanged). -/
theorem refinement_no_active_generation (llm : String → Except Unit String)
    (jsonLoads : String → Option (List (String × JsonValue)))
    (computeDiff : String → String → String) (now : ℤ) (st : RefinerState)
    (hfb : get_unprocessed_since st.feedback (now - 24 * 3600) ≠ [])
    (hact : generation_get_active st.generations = none) :
    run_daily_refinement llm jsonLoads computeDiff now st = (st, none) := by
  unfold run_daily_refinement
  have hE : (get_unprocessed_since st.feedback (now - 24 * 3600)).isEmpty = false := by
    cases hc : get_unprocessed_since st.feedback (now - 24 * 3600) with
    | nil => exact absurd hc hfb
    | cons a t => rfl
  rw [if_neg (by rw [hE]; exact Bool.false_ne_true), hact]

/-- C3 counterexample: with one unconsumed feedback item in the window and an
empty generation store, the run returns the value `none` — exactly what the
no-feedback run returns, so the two outcomes are not distinguishable by the
result — refuting the claim that the no-active-generation case terminates
with an error distinct from the "no work" outcome. -/
theorem refinement_error_value_indistinguishable :
    get_unprocessed_since
        (RefinerState.mk [⟨1, 1, "too fluffy", none, 0, none⟩] []).feedback
        (0 - 24 * 3600) = [⟨1, 1, "too fluffy", none, 0, none⟩] ∧
    generation_get_active
        (RefinerState.mk [⟨1, 1, "too fluffy", none, 0, none⟩] []).generations = none ∧
    (run_daily_refinement (fun _ => Except.error ()) (fun _ => none) (fun _ _ => "") 0
        (RefinerState.mk [⟨1, 1, "too fluffy", none, 0, none⟩] [])).2 = none ∧
    (run_daily_refinement (fun _ => Except.error ()) (fun _ => none) (fun _ _ => "") 0
        (RefinerState.mk [] [])).2 = none :=
  ⟨rfl, rfl, rfl, rfl⟩

/-- C3 witness: the amended theorem evaluated at the concrete
one-feedback-item, empty-generation-store state. -/
theorem refinement_no_active_generation_witness :
    run_daily_refinement (fun _ => Except.error ()) (fun _ => none) (fun _ _ => "") 0
        (RefinerState.mk [⟨1, 1, "too fluffy", none, 0, none⟩] []) =
      (RefinerState.mk [⟨1, 1, "too fluffy", none, 0, none⟩] [], none) :=
  refinement_no_active_generation (fun _ => Except.error ()) (fun _ => none)
    (fun _ _ => "") 0 (RefinerState.mk [⟨1, 1, "too fluffy", none, 0, none⟩] [])
    (List.cons_ne_nil _ _) rfl

/-- C7 (amended): the comparator's error discipline. If the response text
contains no embedded JSON object (no opening or no closing brace) the parse
is a `ComparisonError`; if the extracted JSON slice is syntactically invalid
(`json.loads` fails) the parse is a `ComparisonError`; if the JSON object
carries an `outcome` field whose value is not one of the recognised outcome
strings, and its `reasoning` field (or the default used when it is absent)
is a string, the parse succeeds with outcome `TIE` — a non-string reasoning
value instead fails the response model's `reasoning : str` validation and
surfaces as a `ComparisonError`; and a transport-level failure of the
external call makes `compare_articles` fail with a `ComparisonError`. -/
theorem comparison_parse_and_transport
    (jsonLoads : String → Option (List (String × JsonValue)))
    (llm : String → Except Unit String) (text : String)
    (request : PairwiseComparisonRequest)
    (data : List (String × JsonValue)) (v : JsonValue) :
    ((pyFind text lbrace = -1 ∨ pyRfind text rbrace + 1 = 0) →
      ∃ m, _parse_comparison_response jsonLoads text = Except.error m) ∧
    (¬(pyFind text lbrace = -1 ∨ pyRfind text rbrace + 1 = 0) →
      jsonLoads (pySlice text (pyFind text lbrace).toNat
          (pyRfind text rbrace + 1).toNat) = none →
      ∃ m, _parse_comparison_response jsonLoads text = Except.error m) ∧
    (¬(pyFind text lbrace = -1 ∨ pyRfind text rbrace + 1 = 0) →
      jsonLoads (pySlice text (pyFind text lbrace).toNat
          (pyRfind text rbrace + 1).toNat) = some data →
      dict_get data "outcome" = some v → comparison_outcome_of_value v = none →
      (∃ s, dict_getD data "reasoning" (JsonValue.jstr "No reasoning provided") =
        JsonValue.jstr s) →
      ∃ resp, _parse_comparison_response jsonLoads text = Except.ok resp ∧
        resp.outcome = ComparisonOutcome.tie) ∧
    ((∃ u, llm (build_comparison_prompt request) = Except.error u) →
      ∃ m, compare_articles jsonLoads llm request = Except.error m) := by
  refine ⟨?_, ?_, ?_, ?_⟩
  · intro h
    unfold _parse_comparison_response
    rw [if_pos h]
    exact ⟨_, rfl⟩
  · intro h hn
    unfold _parse_comparison_response
    rw [if_neg h, hn]
    exact ⟨_, rfl⟩
  · rintro h hs ho hbad ⟨s, hr⟩
    unfold _parse_comparison_response
    rw [if_neg h, hs]
    show ∃ resp, build_comparison_response data = Except.ok resp ∧
      resp.outcome = ComparisonOutcome.tie
    unfold build_comparison_response
    rw [hr]
    refine ⟨_, rfl, ?_⟩
    simp [dict_getD, ho, hbad]
  · rintro ⟨u, hu⟩
    unfold compare_articles
    rw [hu]
    exact ⟨_, rfl⟩

/-- C7 counterexample: the response text
`\x7b"outcome": "banana", "reasoning": null\x7d` contains valid JSON whose
`outcome` field is present and unrecognised, yet the comparison result is a
`ComparisonError`, not `TIE`: `reasoning` is `null`, so constructing the
`reasoning : str` response model raises a `ValidationError`, surfaced by
`compare_articles` as a `ComparisonError`. -/
theorem comparison_nonstring_reasoning_counterexample :
    dict_get [("outcome", JsonValue.jstr "banana"), ("reasoning", JsonValue.jnull)]
        "outcome" = some (JsonValue.jstr "banana") ∧
    comparison_outcome_of_value (JsonValue.jstr "banana") = none ∧
    _parse_comparison_response
        (fun _ => some [("outcome", JsonValue.jstr "banana"),
          ("reasoning", JsonValue.jnull)])
        "\x7b\"outcome\": \"banana\", \"reasoning\": null\x7d" =
      Except.error "ValidationError: reasoning must be a string" :=
  ⟨rfl, rfl, rfl⟩

/-- C7 witness: brace-free text is rejected, a JSON object with the
unrecognised outcome value `5` parses to TIE, and a transport error is a
`ComparisonError`, each at concrete inputs. -/
theorem comparison_parse_and_transport_witness :
    (∃ m, _parse_comparison_response (fun _ => none) "no json here" = Except.error m) ∧
    (∃ resp, _parse_comparison_response (fun _ => some [("outcome", JsonValue.jnum 5)])
        "\x7bx\x7d" = Except.ok resp ∧ resp.outcome = ComparisonOutcome.tie) ∧
    (∃ m, compare_articles (fun _ => none) (fun _ => Except.error ())
        ⟨1, 2, "a", "b", "pa", "pb"⟩ = Except.error m) :=
  ⟨(comparison_parse_and_transport (fun _ => none) (fun _ => Except.error ())
      "no json here" ⟨1, 2, "a", "b", "pa", "pb"⟩ [] JsonValue.jnull).1
      (Or.inl (by decide)),
    (comparison_parse_and_transport (fun _ => some [("outcome", JsonValue.jnum 5)])
      (fun _ => Except.error ()) "\x7bx\x7d" ⟨1, 2, "a", "b", "pa", "pb"⟩
      [("outcome", JsonValue.jnum 5)] (JsonValue.jnum 5)).2.2.1
      (by decide) rfl rfl rfl ⟨_, rfl⟩,
    (comparison_parse_and_transport (fun _ => none) (fun _ => Except.error ())
      "no json here" ⟨1, 2, "a", "b", "pa", "pb"⟩ [] JsonValue.jnull).2.2.2
      ⟨(), rfl⟩⟩

end Reader
